import Mathlib

/-
Verification of the polariton cavity simulator (src/scripts/cpp/polariton.h and
src/scripts/cpp/cavity_config.h).

The C++ entity graph (PolaritonMode / PhononMode / NonResonantDriving linked by
raw pointers, with parallel coupling arrays) is embedded as an arena of records
addressed by list indices: a link stores the index of the neighbouring
polariton and of the mediating phonon, and a pairing stores the indices of its
two polaritons.  Machine doubles are modelled as real numbers, arma::cx_double
as the complex numbers, std::polar(1.0, theta) as exp(theta * I), and the flat
arma::vec state as a list of reals.  Fallible configuration loading returns
Except String.
-/

noncomputable section

/-- Saturable gain reservoir attached to one polariton
(class NonResonantDriving; the owning-polariton pointer is implicit:
the owner passes its own amplitude to the derivative). -/
structure NonResonantDriving where
  coupling_constant : ℝ
  time_factor : ℝ
  power : ℝ
  alpha : ℝ
  value : ℝ

/-- One directed coupling of a polariton: entries of the parallel vectors
neighboring_polaritons / neighboring_phonons / constant_couplings /
phonon_couplings / detunings_from_resonance / signs at one common index,
gathered into a single record (neighbor and phonon are arena indices). -/
structure Link where
  neighbor : ℕ
  phonon : ℕ
  J : ℂ
  g : ℂ
  delta : ℝ
  sign : ℝ

/-- Driven dissipative nonlinear oscillator (class PolaritonMode). -/
structure PolaritonMode where
  dissipative_gamma : ℝ
  self_interaction : ℝ
  r_driving_amp : ℂ
  r_driving_detuning : ℝ
  reservoir_owned : Option NonResonantDriving
  reservoir_coupling : ℝ
  links : List Link
  value : ℂ

/-- One pairing of a phonon: entries of the parallel vectors pairs /
detunings / couplings at one common index (pair0, pair1 are arena indices). -/
structure Pairing where
  pair0 : ℕ
  pair1 : ℕ
  delta : ℝ
  coupling : ℝ

/-- Damped harmonic mechanical mode (class PhononMode). -/
structure PhononMode where
  frequency : ℝ
  dissipation : ℝ
  position : ℝ
  velocity : ℝ
  pairs : List Pairing

/-- Placeholder entity used as the default of an arena lookup; the C++ code
dereferences pointers that are valid by construction, so well-formed inputs
never reach the default. -/
def defPolariton : PolaritonMode :=
  { dissipative_gamma := 0, self_interaction := 0, r_driving_amp := 0,
    r_driving_detuning := 0, reservoir_owned := none, reservoir_coupling := 0,
    links := [], value := 0 }

/-- Placeholder phonon for arena lookups (see defPolariton). -/
def defPhonon : PhononMode :=
  { frequency := 0, dissipation := 0, position := 0, velocity := 0, pairs := [] }

/-- std::polar(1.0, theta): the unit complex number of argument theta. -/
def polar_one (theta : ℝ) : ℂ := Complex.exp (theta * Complex.I)

/-- One iteration of the neighbor loop in PolaritonMode::derivative:
(J + g * phonon.position) * polar(1, sign * (freq + delta) * t) * neighbor. -/
def link_term (ps : List PolaritonMode) (phs : List PhononMode) (t : ℝ)
    (l : Link) : ℂ :=
  let ph := phs.getD l.phonon defPhonon
  let phase := l.sign * (ph.frequency + l.delta) * t
  (l.J + l.g * ph.position) * polar_one phase
    * (ps.getD l.neighbor defPolariton).value

/-- The conditional read reservoir_owned ? reservoir_owned->get_value() : 0.0
at the top of PolaritonMode::derivative. -/
def reservoir_value_or_zero (p : PolaritonMode) : ℂ :=
  match p.reservoir_owned with
  | some r => (r.value : ℂ)
  | none => 0

/-- The local (link-free) part drv of PolaritonMode::derivative before the
neighbor loop runs. -/
def local_drv (p : PolaritonMode) (t : ℝ) : ℂ :=
  p.value * (-Complex.I * p.dissipative_gamma
      + p.self_interaction * p.value * (starRingEnd ℂ) p.value
      + Complex.I * p.reservoir_coupling * reservoir_value_or_zero p)
    + p.r_driving_amp * polar_one (p.r_driving_detuning * t)

/-- PolaritonMode::derivative.  ps and phs are the entity arenas the stored
pointers point into. -/
def PolaritonMode.derivative (ps : List PolaritonMode) (phs : List PhononMode)
    (p : PolaritonMode) (t : ℝ) : ℂ :=
  -Complex.I * (local_drv p t + (p.links.map (link_term ps phs t)).sum)

/-- One iteration of the pair loop in PhononMode::second_derivative:
coupling * pair0 * conj(pair1) * polar(1, -(freq + delta) * t). -/
def pair_term (ps : List PolaritonMode) (freq t : ℝ) (pr : Pairing) : ℂ :=
  (pr.coupling : ℂ) * (ps.getD pr.pair0 defPolariton).value
    * (starRingEnd ℂ) (ps.getD pr.pair1 defPolariton).value
    * polar_one (-(freq + pr.delta) * t)

/-- PhononMode::second_derivative. -/
def PhononMode.second_derivative (ps : List PolaritonMode)
    (ph : PhononMode) (t : ℝ) : ℝ :=
  -ph.frequency * ph.frequency * ph.position - ph.dissipation * ph.velocity
    + -2 * ph.frequency * ph.dissipation
        * ((ph.pairs.map (pair_term ps ph.frequency t)).sum).re

/-- NonResonantDriving::derivative; polariton_value is the current amplitude
of the owning polariton (read through the stored pointer in C++).
The time argument is unused, exactly as in the source. -/
def NonResonantDriving.derivative (polariton_value : ℂ)
    (r : NonResonantDriving) (t : ℝ) : ℝ :=
  let intensity := (polariton_value * (starRingEnd ℂ) polariton_value).re
  r.time_factor * (r.power - r.value * (1 + r.alpha * r.alpha * intensity))

/-- First loop of Cavity::pack_state: re, im of every polariton in creation
order. -/
def pack_polaritons : List PolaritonMode → List ℝ
  | [] => []
  | p :: rest => p.value.re :: p.value.im :: pack_polaritons rest

/-- Second loop of Cavity::pack_state: position, velocity of every phonon. -/
def pack_phonons : List PhononMode → List ℝ
  | [] => []
  | ph :: rest => ph.position :: ph.velocity :: pack_phonons rest

/-- Third loop of Cavity::pack_state: one scalar per polariton owning a
reservoir, in polariton-creation order. -/
def pack_reservoirs : List PolaritonMode → List ℝ
  | [] => []
  | p :: rest =>
    match p.reservoir_owned with
    | some r => r.value :: pack_reservoirs rest
    | none => pack_reservoirs rest

/-- Cavity::pack_state: the flat state vector written at increasing idx. -/
def pack_state (ps : List PolaritonMode) (phs : List PhononMode) : List ℝ :=
  pack_polaritons ps ++ pack_phonons phs ++ pack_reservoirs ps

/-- First loop of Cavity::unpack_state: each polariton reads two consecutive
components as its complex amplitude. -/
def unpack_polaritons : List PolaritonMode → List ℝ → List PolaritonMode
  | [], _ => []
  | p :: rest, x =>
    { p with value := ⟨x.getD 0 0, x.getD 1 0⟩ } :: unpack_polaritons rest (x.drop 2)

/-- Second loop of Cavity::unpack_state: position and velocity per phonon. -/
def unpack_phonons : List PhononMode → List ℝ → List PhononMode
  | [], _ => []
  | ph :: rest, x =>
    { ph with position := x.getD 0 0, velocity := x.getD 1 0 }
      :: unpack_phonons rest (x.drop 2)

/-- Third loop of Cavity::unpack_state: each reservoir-owning polariton
consumes one component into its reservoir value. -/
def unpack_reservoirs : List PolaritonMode → List ℝ → List PolaritonMode
  | [], _ => []
  | p :: rest, x =>
    match p.reservoir_owned with
    | some r =>
        { p with reservoir_owned := some { r with value := x.getD 0 0 } }
          :: unpack_reservoirs rest (x.drop 1)
    | none => p :: unpack_reservoirs rest x

/-- Cavity::unpack_state: the three loops share one running index, so the
phonon loop starts at offset 2p and the reservoir loop at offset 2p + 2m. -/
def unpack_state (ps : List PolaritonMode) (phs : List PhononMode)
    (x : List ℝ) : List PolaritonMode × List PhononMode :=
  (unpack_reservoirs (unpack_polaritons ps x)
      (x.drop (2 * ps.length + 2 * phs.length)),
   unpack_phonons phs (x.drop (2 * ps.length)))

/-- Number of polaritons owning a reservoir (the loop in the Cavity
constructor that increments N once per non-null reservoir). -/
def reservoir_count (ps : List PolaritonMode) : ℕ :=
  (ps.filter (fun p => p.reservoir_owned.isSome)).length

/-- State dimension N = 2p + 2m + r computed by the Cavity constructor. -/
def system_dimension (ps : List PolaritonMode) (phs : List PhononMode) : ℕ :=
  2 * ps.length + 2 * phs.length + reservoir_count ps

/-- The reservoir values in polariton-creation order restricted to owners. -/
def reservoir_values (ps : List PolaritonMode) : List ℝ :=
  ps.filterMap (fun p => p.reservoir_owned.map (fun r => r.value))

/-- Class Cavity: entity arenas plus the integrator bookkeeping fields. -/
structure Cavity where
  polaritons : List PolaritonMode
  phonons : List PhononMode
  current_state : List ℝ
  current_time : ℝ
  used_time_step : ℝ

/-- The main Cavity constructor: stores the entities, sets t0, allocates the
state vector and packs it (used_time_step keeps its in-class value 1e-3). -/
def Cavity.construct (ps : List PolaritonMode) (phs : List PhononMode)
    (t0 : ℝ) : Cavity :=
  { polaritons := ps, phonons := phs,
    current_state := pack_state ps phs,
    current_time := t0,
    used_time_step := 1 / 1000 }

/-- Cavity::get_time. -/
def Cavity.get_time (c : Cavity) : ℝ := c.current_time

/-- Cavity::get_time_step. -/
def Cavity.get_time_step (c : Cavity) : ℝ := c.used_time_step

/-- Cavity::get_state. -/
def Cavity.get_state (c : Cavity) : List ℝ := c.current_state

/-- First loop of Cavity::operator(): re and im of every polariton
derivative, in creation order; ps and phs are the full arenas. -/
def deriv_polaritons (ps : List PolaritonMode) (phs : List PhononMode) :
    List PolaritonMode → ℝ → List ℝ
  | [], _ => []
  | p :: rest, t =>
    (PolaritonMode.derivative ps phs p t).re
      :: (PolaritonMode.derivative ps phs p t).im
      :: deriv_polaritons ps phs rest t

/-- Second loop of Cavity::operator(): velocity then second_derivative. -/
def deriv_phonons (ps : List PolaritonMode) : List PhononMode → ℝ → List ℝ
  | [], _ => []
  | ph :: rest, t =>
    ph.velocity :: PhononMode.second_derivative ps ph t
      :: deriv_phonons ps rest t

/-- Third loop of Cavity::operator(): one reservoir derivative per owner. -/
def deriv_reservoirs : List PolaritonMode → ℝ → List ℝ
  | [], _ => []
  | p :: rest, t =>
    match p.reservoir_owned with
    | some r => NonResonantDriving.derivative p.value r t :: deriv_reservoirs rest t
    | none => deriv_reservoirs rest t

/-- The derivative vector written by Cavity::operator() once the entities
hold the unpacked state. -/
def rhs_core (ps : List PolaritonMode) (phs : List PhononMode) (t : ℝ) : List ℝ :=
  deriv_polaritons ps phs ps t ++ deriv_phonons ps phs t ++ deriv_reservoirs ps t

/-- Cavity::operator()(x, dxdt, t): unpacks x into the entities (a visible
side effect, returned as the first component) and writes the derivative
vector (second component). -/
def cavity_eval (ps : List PolaritonMode) (phs : List PhononMode)
    (x : List ℝ) (t : ℝ) :
    (List PolaritonMode × List PhononMode) × List ℝ :=
  let s := unpack_state ps phs x
  (s, rhs_core s.1 s.2 t)

/-- The vector field as the pure function of (x, t) the steppers consume. -/
def cavity_rhs (ps : List PolaritonMode) (phs : List PhononMode)
    (x : List ℝ) (t : ℝ) : List ℝ :=
  (cavity_eval ps phs x t).2

/-- Componentwise sum of two state vectors. -/
def vec_add (a b : List ℝ) : List ℝ := List.zipWith (fun u v => u + v) a b

/-- Scalar multiple of a state vector. -/
def vec_scale (c : ℝ) (a : List ℝ) : List ℝ := a.map (fun u => c * u)

/-- One boost::numeric::odeint::runge_kutta4 step of size dt for the vector
field f, from state x at time t (the classical explicit RK4 update; the
stepper reads t only by value and leaves it to the caller). -/
def rk4_step (f : List ℝ → ℝ → List ℝ) (x : List ℝ) (t dt : ℝ) : List ℝ :=
  let k1 := f x t
  let k2 := f (vec_add x (vec_scale (dt / 2) k1)) (t + dt / 2)
  let k3 := f (vec_add x (vec_scale (dt / 2) k2)) (t + dt / 2)
  let k4 := f (vec_add x (vec_scale dt k3)) (t + dt)
  vec_add x (vec_scale (dt / 6)
    (vec_add (vec_add k1 (vec_scale 2 k2)) (vec_add (vec_scale 2 k3) k4)))

/-- Cavity::do_step(dt): one RK4 step on current_state at current_time (the
member time is passed to the stepper by value and never written back), then
unpack_state(current_state), then used_time_step = dt. -/
def Cavity.do_step (c : Cavity) (dt : ℝ) : Cavity :=
  let x1 := rk4_step (cavity_rhs c.polaritons c.phonons)
      c.current_state c.current_time dt
  let s := unpack_state c.polaritons c.phonons x1
  { c with current_state := x1, polaritons := s.1, phonons := s.2,
           used_time_step := dt }

/-- PolaritonMode::connect: pushes one link onto the parallel arrays
(above ? 1.0 : -1.0 for the sign). -/
def PolaritonMode.connect (p : PolaritonMode) (neighbor phonon : ℕ)
    (J g delta : ℝ) (above : Bool) : PolaritonMode :=
  { p with links := p.links ++
      [{ neighbor := neighbor, phonon := phonon, J := (J : ℂ), g := (g : ℂ),
         delta := delta, sign := if above then 1 else -1 }] }

/-- PolaritonMode::add_reservoir: creates the owned NonResonantDriving and
records the coupling. -/
def PolaritonMode.add_reservoir (p : PolaritonMode)
    (coupling tau pump_power alpha initial_n : ℝ) : PolaritonMode :=
  { p with
    reservoir_owned := some
      { coupling_constant := coupling, time_factor := tau,
        power := pump_power, alpha := alpha, value := initial_n },
    reservoir_coupling := coupling }

/-- PhononMode::add_pairing. -/
def PhononMode.add_pairing (ph : PhononMode) (p1 p2 : ℕ)
    (delta coupling : ℝ) : PhononMode :=
  { ph with pairs := ph.pairs ++
      [{ pair0 := p1, pair1 := p2, delta := delta, coupling := coupling }] }

/-- A [polariton name] section of the INI file, with its parameters already
evaluated to numbers (expression parsing is external). -/
structure PolaritonDecl where
  name : String
  gamma : ℝ
  U : ℝ
  initial_re : ℝ
  initial_im : ℝ

/-- A [phonon name] section. -/
structure PhononDecl where
  name : String
  omega : ℝ
  gamma : ℝ
  initial_position : ℝ
  initial_velocity : ℝ

/-- A [reservoir ...] section. -/
structure ReservoirDecl where
  target : String
  coupling : ℝ
  tau : ℝ
  power : ℝ
  alpha : ℝ
  n0 : ℝ

/-- A [coupling ...] section. -/
structure CouplingDecl where
  from_name : String
  to_name : String
  phonon_name : String
  J : ℝ
  g : ℝ
  delta : ℝ
  above : Bool

/-- A [pairing ...] section, sites already split at the comma. -/
structure PairingDecl where
  phonon_name : String
  site1 : String
  site2 : String
  g : ℝ
  delta : ℝ

/-- The parsed INI file consumed by CavityConfig::load_from_ini, one list of
declarations per section type. -/
structure CavityConfigFile where
  polariton_decls : List PolaritonDecl
  phonon_decls : List PhononDecl
  reservoir_decls : List ReservoirDecl
  coupling_decls : List CouplingDecl
  pairing_decls : List PairingDecl
  t0 : ℝ

/-- Lookup in the std::unordered_map name maps; map[name] = id overwrites, so
the most recently inserted binding wins. -/
def map_lookup (m : List (String × ℕ)) (k : String) : Option ℕ :=
  (m.reverse.find? (fun e => e.1 == k)).map (fun e => e.2)

/-- Phase 1 of load_from_ini, per section: new PolaritonMode(gamma, U) with
set_value({initial_real, initial_imag}). -/
def polariton_of_decl (d : PolaritonDecl) : PolaritonMode :=
  { dissipative_gamma := d.gamma, self_interaction := d.U,
    r_driving_amp := 0, r_driving_detuning := 0,
    reservoir_owned := none, reservoir_coupling := 0,
    links := [], value := ⟨d.initial_re, d.initial_im⟩ }

/-- Phase 1: all polaritons in section order. -/
def build_polaritons (ds : List PolaritonDecl) : List PolaritonMode :=
  ds.map polariton_of_decl

/-- The polariton name map built in phase 1 (name -> creation index). -/
def polariton_name_map (ds : List PolaritonDecl) : List (String × ℕ) :=
  ds.enum.map (fun e => (e.2.name, e.1))

/-- Phase 2, per section: new PhononMode(omega, gamma) with initial position
and velocity set. -/
def phonon_of_decl (d : PhononDecl) : PhononMode :=
  { frequency := d.omega, dissipation := d.gamma,
    position := d.initial_position, velocity := d.initial_velocity,
    pairs := [] }

/-- Phase 2: all phonons in section order. -/
def build_phonons (ds : List PhononDecl) : List PhononMode :=
  ds.map phonon_of_decl

/-- The phonon name map built in phase 2. -/
def phonon_name_map (ds : List PhononDecl) : List (String × ℕ) :=
  ds.enum.map (fun e => (e.2.name, e.1))

/-- The reservoir constructed in phase 3: note the loader takes
std::sqrt of the configured alpha before calling add_reservoir. -/
def reservoir_of_decl (d : ReservoirDecl) : NonResonantDriving :=
  { coupling_constant := d.coupling, time_factor := d.tau, power := d.power,
    alpha := Real.sqrt d.alpha, value := d.n0 }

/-- Phase 3 of load_from_ini: resolve each reservoir target and attach the
reservoir to its polariton, failing on an unresolved target name. -/
def load_reservoirs (pmap : List (String × ℕ)) :
    List ReservoirDecl → List PolaritonMode → Except String (List PolaritonMode)
  | [], ps => .ok ps
  | d :: rest, ps =>
    match map_lookup pmap d.target with
    | none => .error ("Reservoir target not found: " ++ d.target)
    | some i =>
        load_reservoirs pmap rest
          (ps.set i ((ps.getD i defPolariton).add_reservoir
            d.coupling d.tau d.power (Real.sqrt d.alpha) d.n0))

/-- Phase 4 of load_from_ini: resolve from / to / phonon names in that order
and connect, failing on the first unresolved name. -/
def load_couplings (pmap phmap : List (String × ℕ)) :
    List CouplingDecl → List PolaritonMode → Except String (List PolaritonMode)
  | [], ps => .ok ps
  | d :: rest, ps =>
    match map_lookup pmap d.from_name with
    | none => .error ("Coupling 'from' not found: " ++ d.from_name)
    | some from_id =>
      match map_lookup pmap d.to_name with
      | none => .error ("Coupling 'to' not found: " ++ d.to_name)
      | some to_id =>
        match map_lookup phmap d.phonon_name with
        | none => .error ("Coupling phonon not found: " ++ d.phonon_name)
        | some ph_id =>
            load_couplings pmap phmap rest
              (ps.set from_id ((ps.getD from_id defPolariton).connect
                to_id ph_id d.J d.g d.delta d.above))

/-- Phase 5 of load_from_ini: resolve the pairing phonon and both sites and
add the pairing, failing on the first unresolved name. -/
def load_pairings (pmap phmap : List (String × ℕ)) :
    List PairingDecl → List PhononMode → Except String (List PhononMode)
  | [], phs => .ok phs
  | d :: rest, phs =>
    match map_lookup phmap d.phonon_name with
    | none => .error ("Pairing phonon not found: " ++ d.phonon_name)
    | some ph_id =>
      match map_lookup pmap d.site1 with
      | none => .error ("Pairing site not found: " ++ d.site1)
      | some p1 =>
        match map_lookup pmap d.site2 with
        | none => .error ("Pairing site not found: " ++ d.site2)
        | some p2 =>
            load_pairings pmap phmap rest
              (phs.set ph_id ((phs.getD ph_id defPhonon).add_pairing p1 p2 d.delta d.g))

/-- CavityConfig::load_from_ini: the five phases in order; any thrown
runtime_error propagates and the final assembly (time, dimension, state
vector, pack) happens only when every name resolved. -/
def load_from_ini (cfg : CavityConfigFile) : Except String Cavity :=
  let ps0 := build_polaritons cfg.polariton_decls
  let pmap := polariton_name_map cfg.polariton_decls
  let phs0 := build_phonons cfg.phonon_decls
  let phmap := phonon_name_map cfg.phonon_decls
  match load_reservoirs pmap cfg.reservoir_decls ps0 with
  | .error e => .error e
  | .ok ps1 =>
    match load_couplings pmap phmap cfg.coupling_decls ps1 with
    | .error e => .error e
    | .ok ps2 =>
      match load_pairings pmap phmap cfg.pairing_decls phs0 with
      | .error e => .error e
      | .ok phs1 =>
          .ok { polaritons := ps2, phonons := phs1,
                current_state := pack_state ps2 phs1,
                current_time := cfg.t0,
                used_time_step := 1 / 1000 }

/-- The oscillator derivative exactly as the spec sentence writes it:
-i*value*(-i*gamma + U*|value|^2) - i*drive_amp*exp(i*detuning*t)
(stated from the spec for comparison with PolaritonMode.derivative). -/
def spec_polariton_formula (p : PolaritonMode) (t : ℝ) : ℂ :=
  -Complex.I * p.value * (-Complex.I * p.dissipative_gamma
      + p.self_interaction * Complex.normSq p.value)
    - Complex.I * p.r_driving_amp * Complex.exp (Complex.I * (p.r_driving_detuning * t))

/-- Example oscillator of the spec's zero-coupling test: gamma = 1, U = 0,
no drive, no reservoir, amplitude 1 + 0i. -/
def pol_ex : PolaritonMode :=
  { dissipative_gamma := 1, self_interaction := 0, r_driving_amp := 0,
    r_driving_detuning := 0, reservoir_owned := none, reservoir_coupling := 0,
    links := [], value := 1 }

/-- Oscillator with zero-coupling links but an active reservoir: gamma = 0,
U = 0, no drive, reservoir value 1 with coupling 1, amplitude 1 + 0i. -/
def pol_res : PolaritonMode :=
  { dissipative_gamma := 0, self_interaction := 0, r_driving_amp := 0,
    r_driving_detuning := 0,
    reservoir_owned := some
      { coupling_constant := 1, time_factor := 1, power := 0, alpha := 0,
        value := 1 },
    reservoir_coupling := 1, links := [], value := 1 }

/-- Example mechanical mode of the spec's decoupled test: Omega = 20,
Gamma = 0.05, position 1, velocity 0, no pairings. -/
def ph_ex : PhononMode :=
  { frequency := 20, dissipation := 1 / 20, position := 1, velocity := 0,
    pairs := [] }

/-- Empty cavity built by the main constructor at t0 = 0. -/
def cav0 : Cavity := Cavity.construct [] [] 0

/-- Config with a single coupling section whose from and to names both match
no polariton ([coupling] from = a, to = b, phonon = c over an empty system). -/
def cfg_bad : CavityConfigFile :=
  { polariton_decls := [], phonon_decls := [], reservoir_decls := [],
    coupling_decls := [{ from_name := "a", to_name := "b", phonon_name := "c",
                         J := 0, g := 1, delta := 0, above := true }],
    pairing_decls := [], t0 := 0 }

/-- Config with one polariton a and one coupling whose to name b is
unresolved while from = a resolves. -/
def cfg_to_missing : CavityConfigFile :=
  { polariton_decls := [{ name := "a", gamma := 1, U := 0,
                          initial_re := 0, initial_im := 0 }],
    phonon_decls := [], reservoir_decls := [],
    coupling_decls := [{ from_name := "a", to_name := "b", phonon_name := "c",
                         J := 0, g := 1, delta := 0, above := true }],
    pairing_decls := [], t0 := 0 }

/-- Example reservoir section with alpha = 4 (tau = 1, power = 0, n0 = 1). -/
def res_decl_ex : ReservoirDecl :=
  { target := "a", coupling := 1, tau := 1, power := 0, alpha := 4, n0 := 1 }

end

/-- C6: for every reservoir and time, NonResonantDriving::derivative equals
tau * (power - value * (1 + alpha^2 * |owner value|^2)), the squared modulus
being taken of the owning oscillator's current amplitude. -/
theorem reservoir_derivative_formula (v : ℂ) (r : NonResonantDriving) (t : ℝ) :
    NonResonantDriving.derivative v r t
      = r.time_factor * (r.power - r.value * (1 + r.alpha ^ 2 * Complex.normSq v)) := by
  unfold NonResonantDriving.derivative
  rw [Complex.mul_conj, Complex.ofReal_re]
  ring

/-- C4 (amended): for an oscillator with no reservoir whose links all have
J = 0 and g = 0, PolaritonMode::derivative reduces to the spec formula
-i*value*(-i*gamma + U*|value|^2) - i*drive_amp*exp(i*detuning*t). -/
theorem polariton_derivative_zero_coupling (ps : List PolaritonMode)
    (phs : List PhononMode) (p : PolaritonMode) (t : ℝ)
    (hres : p.reservoir_owned = none)
    (hlinks : ∀ l ∈ p.links, l.J = 0 ∧ l.g = 0) :
    PolaritonMode.derivative ps phs p t = spec_polariton_formula p t := by
  have h0 : reservoir_value_or_zero p = 0 := by
    simp [reservoir_value_or_zero, hres]
  have hsum : (p.links.map (link_term ps phs t)).sum = 0 := by
    apply List.sum_eq_zero
    intro y hy
    obtain ⟨l, hl, rfl⟩ := List.mem_map.mp hy
    obtain ⟨hJ, hg⟩ := hlinks l hl
    simp [link_term, hJ, hg]
  have hexp : ((p.r_driving_detuning * t : ℝ) : ℂ) * Complex.I
      = Complex.I * ((p.r_driving_detuning * t : ℝ) : ℂ) := mul_comm _ _
  unfold PolaritonMode.derivative spec_polariton_formula local_drv polar_one
  rw [h0, hsum, hexp, ← Complex.mul_conj]
  push_cast
  ring

/-- C4 witness: the spec's instance gamma = 1, U = 0, drive = 0,
value = 1 + 0i gives derivative -1 + 0i at t = 0. -/
theorem polariton_derivative_zero_coupling_witness :
    PolaritonMode.derivative [pol_ex] [] pol_ex 0 = -1 := by
  have h := polariton_derivative_zero_coupling [pol_ex] [] pol_ex 0 rfl
    (by intro l hl; simp [pol_ex] at hl)
  rw [h]
  simp [spec_polariton_formula, pol_ex, Complex.ext_iff]

/-- C4 counterexample: an oscillator with only zero-coupling links (here
none) but an active reservoir does not satisfy the claimed formula: the
reservoir term i*coupling*n contributes to the derivative. -/
theorem polariton_reservoir_breaks_formula :
    PolaritonMode.derivative [pol_res] [] pol_res 0
      ≠ spec_polariton_formula pol_res 0 := by
  have h1 : PolaritonMode.derivative [pol_res] [] pol_res 0 = 1 := by
    simp [PolaritonMode.derivative, local_drv, reservoir_value_or_zero,
      polar_one, pol_res, Complex.ext_iff]
  have h2 : spec_polariton_formula pol_res 0 = 0 := by
    simp [spec_polariton_formula, pol_res, Complex.ext_iff]
  rw [h1, h2]
  exact one_ne_zero

/-- C5 (general form): a mechanical mode whose pairings all have zero
coupling has second_derivative -Omega^2*position - Gamma*velocity. -/
theorem phonon_decoupled_formula (ps : List PolaritonMode) (ph : PhononMode)
    (t : ℝ) (h : ∀ pr ∈ ph.pairs, pr.coupling = 0) :
    PhononMode.second_derivative ps ph t
      = -(ph.frequency ^ 2) * ph.position - ph.dissipation * ph.velocity := by
  have hsum : (ph.pairs.map (pair_term ps ph.frequency t)).sum = 0 := by
    apply List.sum_eq_zero
    intro y hy
    obtain ⟨pr, hpr, rfl⟩ := List.mem_map.mp hy
    simp [pair_term, h pr hpr]
  unfold PhononMode.second_derivative
  rw [hsum]
  simp only [Complex.zero_re]
  ring

/-- C5 witness: Omega = 20, Gamma = 0.05, position = 1, velocity = 0 and no
pairings give second_derivative -400. -/
theorem phonon_decoupled_formula_witness :
    PhononMode.second_derivative [] ph_ex 0 = -400 := by
  have h := phonon_decoupled_formula [] ph_ex 0
    (by intro pr hpr; simp [ph_ex] at hpr)
  rw [h]
  norm_num [ph_ex]

/-- C10: the loader stores sqrt(alpha_cfg) as the reservoir's alpha, so the
derivative's saturation factor is 1 + alpha_cfg * |owner value|^2: the
configured alpha enters linearly. -/
theorem reservoir_alpha_enters_linearly (d : ReservoirDecl) (v : ℂ) (t : ℝ)
    (ha : 0 ≤ d.alpha) :
    (reservoir_of_decl d).alpha = Real.sqrt d.alpha ∧
    NonResonantDriving.derivative v (reservoir_of_decl d) t
      = d.tau * (d.power - d.n0 * (1 + d.alpha * Complex.normSq v)) := by
  constructor
  · rfl
  · unfold NonResonantDriving.derivative reservoir_of_decl
    rw [Complex.mul_conj, Complex.ofReal_re]
    simp only []
    rw [Real.mul_self_sqrt ha]

/-- C10 witness: configured alpha = 4 at owner amplitude 1 + 0i: the
saturation factor is 1 + 4, giving derivative 1 * (0 - 1 * 5) = -5. -/
theorem reservoir_alpha_enters_linearly_witness :
    (0 : ℝ) ≤ res_decl_ex.alpha ∧
    NonResonantDriving.derivative 1 (reservoir_of_decl res_decl_ex) 0
      = res_decl_ex.tau
          * (res_decl_ex.power - res_decl_ex.n0 * (1 + res_decl_ex.alpha * Complex.normSq 1)) :=
  ⟨by norm_num [res_decl_ex],
   (reservoir_alpha_enters_linearly res_decl_ex 1 0 (by norm_num [res_decl_ex])).2⟩

/-- C8 (amended): the fixed stepper also mutates the remembered step size:
do_step(dt) sets it to dt for every cavity and dt. -/
theorem do_step_sets_time_step (c : Cavity) (dt : ℝ) :
    (c.do_step dt).get_time_step = dt := rfl

/-- C8 counterexample: on the empty cavity with its default remembered step
1e-3, do_step(1) changes get_time_step, so the fixed stepper does not leave
the remembered step size unchanged. -/
theorem do_step_time_step_counterexample :
    (cav0.do_step 1).get_time_step ≠ cav0.get_time_step := by
  have h1 : (cav0.do_step 1).get_time_step = 1 := rfl
  have h2 : cav0.get_time_step = 1 / 1000 := rfl
  rw [h1, h2]
  norm_num

/-- C1: do_step(dt) advances current_state by one explicit RK4 step of size
dt, but the stored simulation time is left unchanged (boost's runge_kutta4
takes time by value, and do_step never writes current_time), so get_time
does not advance by dt: at the failing input (empty cavity, dt = 0.005) it
stays 0 instead of 0.005. -/
theorem do_step_rk4_but_time_frozen :
    (∀ (c : Cavity) (dt : ℝ),
        (c.do_step dt).get_state
            = rk4_step (cavity_rhs c.polaritons c.phonons)
                c.current_state c.current_time dt
          ∧ (c.do_step dt).get_time = c.get_time) ∧
    (cav0.do_step (5 / 1000)).get_time ≠ cav0.get_time + 5 / 1000 := by
  refine ⟨fun c dt => ⟨rfl, rfl⟩, ?_⟩
  have h1 : (cav0.do_step (5 / 1000)).get_time = 0 := rfl
  have h2 : cav0.get_time = 0 := rfl
  rw [h1, h2]
  norm_num

theorem pack_polaritons_length (ps : List PolaritonMode) :
    (pack_polaritons ps).length = 2 * ps.length := by
  induction ps with
  | nil => rfl
  | cons p rest ih =>
      simp only [pack_polaritons, List.length_cons, ih]
      omega

theorem pack_phonons_length (phs : List PhononMode) :
    (pack_phonons phs).length = 2 * phs.length := by
  induction phs with
  | nil => rfl
  | cons ph rest ih =>
      simp only [pack_phonons, List.length_cons, ih]
      omega

theorem pack_reservoirs_eq_values (ps : List PolaritonMode) :
    pack_reservoirs ps = reservoir_values ps := by
  induction ps with
  | nil => rfl
  | cons p rest ih =>
      cases hro : p.reservoir_owned with
      | some r => simp [pack_reservoirs, reservoir_values, hro, ih]
      | none => simp [pack_reservoirs, reservoir_values, hro, ih]

theorem reservoir_count_cons_some (p : PolaritonMode) (rest : List PolaritonMode)
    (r : NonResonantDriving) (h : p.reservoir_owned = some r) :
    reservoir_count (p :: rest) = reservoir_count rest + 1 := by
  simp [reservoir_count, h]

theorem reservoir_count_cons_none (p : PolaritonMode) (rest : List PolaritonMode)
    (h : p.reservoir_owned = none) :
    reservoir_count (p :: rest) = reservoir_count rest := by
  simp [reservoir_count, h]

theorem reservoir_values_cons_some (q : PolaritonMode) (l : List PolaritonMode)
    (r : NonResonantDriving) (h : q.reservoir_owned = some r) :
    reservoir_values (q :: l) = r.value :: reservoir_values l := by
  simp [reservoir_values, h]

theorem reservoir_values_cons_none (q : PolaritonMode) (l : List PolaritonMode)
    (h : q.reservoir_owned = none) :
    reservoir_values (q :: l) = reservoir_values l := by
  simp [reservoir_values, h]

theorem unpack_polaritons_cons (p : PolaritonMode) (rest : List PolaritonMode)
    (x : List ℝ) :
    unpack_polaritons (p :: rest) x
      = { p with value := ⟨x.getD 0 0, x.getD 1 0⟩ }
          :: unpack_polaritons rest (x.drop 2) := rfl

theorem unpack_reservoirs_cons_some (p : PolaritonMode) (rest : List PolaritonMode)
    (x : List ℝ) (r : NonResonantDriving) (h : p.reservoir_owned = some r) :
    unpack_reservoirs (p :: rest) x
      = { p with reservoir_owned := some { r with value := x.getD 0 0 } }
          :: unpack_reservoirs rest (x.drop 1) := by
  simp [unpack_reservoirs, h]

theorem unpack_reservoirs_cons_none (p : PolaritonMode) (rest : List PolaritonMode)
    (x : List ℝ) (h : p.reservoir_owned = none) :
    unpack_reservoirs (p :: rest) x = p :: unpack_reservoirs rest x := by
  simp [unpack_reservoirs, h]

theorem reservoir_values_length (ps : List PolaritonMode) :
    (reservoir_values ps).length = reservoir_count ps := by
  induction ps with
  | nil => rfl
  | cons p rest ih =>
      cases hro : p.reservoir_owned with
      | some r =>
          rw [reservoir_values_cons_some _ _ r hro, reservoir_count_cons_some _ _ r hro,
            List.length_cons, ih]
      | none =>
          rw [reservoir_values_cons_none _ _ hro, reservoir_count_cons_none _ _ hro, ih]

theorem pack_state_length (ps : List PolaritonMode) (phs : List PhononMode) :
    (pack_state ps phs).length = system_dimension ps phs := by
  unfold pack_state system_dimension
  rw [List.length_append, List.length_append, pack_polaritons_length,
    pack_phonons_length, pack_reservoirs_eq_values, reservoir_values_length]

theorem pack_state_drop (ps : List PolaritonMode) (phs : List PhononMode) :
    (pack_state ps phs).drop (2 * ps.length + 2 * phs.length)
      = reservoir_values ps := by
  have hlen : (pack_polaritons ps ++ pack_phonons phs).length
      = 2 * ps.length + 2 * phs.length := by
    rw [List.length_append, pack_polaritons_length, pack_phonons_length]
  calc (pack_state ps phs).drop (2 * ps.length + 2 * phs.length)
      = ((pack_polaritons ps ++ pack_phonons phs) ++ pack_reservoirs ps).drop
          ((pack_polaritons ps ++ pack_phonons phs).length) := by
        rw [hlen]
        unfold pack_state
        rw [List.append_assoc]
    _ = pack_reservoirs ps := List.drop_left _ _
    _ = reservoir_values ps := pack_reservoirs_eq_values ps

theorem unpack_reservoir_segment (ps : List PolaritonMode) (y x : List ℝ)
    (hx : x.length = reservoir_count ps) :
    reservoir_values (unpack_reservoirs (unpack_polaritons ps y) x) = x := by
  induction ps generalizing y x with
  | nil =>
      cases x with
      | nil => rfl
      | cons a x1 => simp [reservoir_count] at hx
  | cons p rest ih =>
      cases hro : p.reservoir_owned with
      | some r =>
          have hx1 : x.length = reservoir_count rest + 1 := by
            rw [hx, reservoir_count_cons_some _ _ r hro]
          cases x with
          | nil => simp at hx1
          | cons a x1 =>
              have hx2 : x1.length = reservoir_count rest := by
                simpa using hx1
              rw [unpack_polaritons_cons,
                unpack_reservoirs_cons_some { p with value := ⟨y.getD 0 0, y.getD 1 0⟩ }
                  (unpack_polaritons rest (y.drop 2)) (a :: x1) r hro,
                reservoir_values_cons_some _ _ { r with value := (a :: x1).getD 0 0 } rfl]
              show a :: reservoir_values
                  (unpack_reservoirs (unpack_polaritons rest (y.drop 2)) x1) = a :: x1
              rw [ih (y.drop 2) x1 hx2]
      | none =>
          have hx1 : x.length = reservoir_count rest := by
            rw [hx, reservoir_count_cons_none _ _ hro]
          rw [unpack_polaritons_cons,
            unpack_reservoirs_cons_none { p with value := ⟨y.getD 0 0, y.getD 1 0⟩ }
              (unpack_polaritons rest (y.drop 2)) x hro,
            reservoir_values_cons_none { p with value := ⟨y.getD 0 0, y.getD 1 0⟩ } _ hro,
            ih (y.drop 2) x hx1]

/-- C2: the flat state vector has dimension exactly 2p + 2m + r, its tail
from offset 2p + 2m is the list of reservoir values in oscillator-creation
order restricted to owners, and unpack reads exactly those components back
into the reservoirs, in the same order. -/
theorem state_layout_invariant (ps : List PolaritonMode) (phs : List PhononMode)
    (x : List ℝ) (hx : x.length = system_dimension ps phs) :
    (pack_state ps phs).length = system_dimension ps phs ∧
    (pack_state ps phs).drop (2 * ps.length + 2 * phs.length)
      = reservoir_values ps ∧
    reservoir_values (unpack_state ps phs x).1
      = x.drop (2 * ps.length + 2 * phs.length) := by
  refine ⟨pack_state_length ps phs, pack_state_drop ps phs, ?_⟩
  unfold unpack_state
  apply unpack_reservoir_segment
  rw [List.length_drop, hx]
  unfold system_dimension
  omega

/-- C2 witness: one reservoir-owning polariton and one phonon give dimension
5 and the layout theorem holds at the concrete state [1,2,3,4,5]. -/
theorem state_layout_invariant_witness :
    ([(1 : ℝ), 2, 3, 4, 5].length = system_dimension [pol_res] [ph_ex]) ∧
    ((pack_state [pol_res] [ph_ex]).length = system_dimension [pol_res] [ph_ex] ∧
     (pack_state [pol_res] [ph_ex]).drop (2 * [pol_res].length + 2 * [ph_ex].length)
       = reservoir_values [pol_res] ∧
     reservoir_values (unpack_state [pol_res] [ph_ex] [(1 : ℝ), 2, 3, 4, 5]).1
       = [(1 : ℝ), 2, 3, 4, 5].drop (2 * [pol_res].length + 2 * [ph_ex].length)) :=
  ⟨rfl, state_layout_invariant [pol_res] [ph_ex] [1, 2, 3, 4, 5] rfl⟩

theorem unpack_pack_polaritons (ps : List PolaritonMode) (z : List ℝ) :
    unpack_polaritons ps (pack_polaritons ps ++ z) = ps := by
  induction ps generalizing z with
  | nil => rfl
  | cons p rest ih =>
      show { p with value := ⟨p.value.re, p.value.im⟩ }
          :: unpack_polaritons rest (pack_polaritons rest ++ z) = p :: rest
      rw [ih]

theorem unpack_pack_phonons (phs : List PhononMode) (z : List ℝ) :
    unpack_phonons phs (pack_phonons phs ++ z) = phs := by
  induction phs generalizing z with
  | nil => rfl
  | cons ph rest ih =>
      show { ph with position := ph.position, velocity := ph.velocity }
          :: unpack_phonons rest (pack_phonons rest ++ z) = ph :: rest
      rw [ih]

theorem unpack_pack_reservoirs (ps : List PolaritonMode) :
    unpack_reservoirs ps (pack_reservoirs ps) = ps := by
  induction ps with
  | nil => rfl
  | cons p rest ih =>
      cases hro : p.reservoir_owned with
      | some r =>
          have hpack : pack_reservoirs (p :: rest) = r.value :: pack_reservoirs rest := by
            simp [pack_reservoirs, hro]
          rw [hpack, unpack_reservoirs_cons_some p rest _ r hro]
          show ({ p with reservoir_owned := some { r with value := r.value } }
              :: unpack_reservoirs rest (pack_reservoirs rest)) = p :: rest
          rw [ih]
          show ({ p with reservoir_owned := some r } :: rest) = p :: rest
          rw [← hro]
      | none =>
          have hpack : pack_reservoirs (p :: rest) = pack_reservoirs rest := by
            simp [pack_reservoirs, hro]
          rw [hpack, unpack_reservoirs_cons_none p rest _ hro, ih]

/-- C3: pack_state followed by unpack_state(current_state) restores every
entity field exactly: oscillator amplitudes, mode positions and velocities,
and reservoir values are unchanged by the round trip. -/
theorem pack_unpack_roundtrip (ps : List PolaritonMode) (phs : List PhononMode) :
    unpack_state ps phs (pack_state ps phs) = (ps, phs) := by
  have hX : pack_state ps phs
      = pack_polaritons ps ++ (pack_phonons phs ++ pack_reservoirs ps) := by
    unfold pack_state
    rw [List.append_assoc]
  have hdropP : (pack_state ps phs).drop (2 * ps.length)
      = pack_phonons phs ++ pack_reservoirs ps := by
    rw [hX, ← pack_polaritons_length ps, List.drop_left]
  have hdropR : (pack_state ps phs).drop (2 * ps.length + 2 * phs.length)
      = pack_reservoirs ps := by
    rw [pack_state_drop, pack_reservoirs_eq_values]
  unfold unpack_state
  rw [hdropP, hdropR, hX, unpack_pack_polaritons, unpack_pack_phonons,
    unpack_pack_reservoirs]

theorem unpack_polaritons_length (ps : List PolaritonMode) (x : List ℝ) :
    (unpack_polaritons ps x).length = ps.length := by
  induction ps generalizing x with
  | nil => rfl
  | cons p rest ih => simp [unpack_polaritons_cons, ih]

theorem unpack_phonons_length (phs : List PhononMode) (x : List ℝ) :
    (unpack_phonons phs x).length = phs.length := by
  induction phs generalizing x with
  | nil => rfl
  | cons ph rest ih => simp [unpack_phonons, ih]

theorem unpack_reservoirs_length (ps : List PolaritonMode) (x : List ℝ) :
    (unpack_reservoirs ps x).length = ps.length := by
  induction ps generalizing x with
  | nil => rfl
  | cons p rest ih =>
      cases hro : p.reservoir_owned with
      | some r => simp [unpack_reservoirs_cons_some p rest x r hro, ih]
      | none => simp [unpack_reservoirs_cons_none p rest x hro, ih]

theorem unpack_polaritons_idem (ps : List PolaritonMode) (x : List ℝ) :
    unpack_polaritons (unpack_polaritons ps x) x = unpack_polaritons ps x := by
  induction ps generalizing x with
  | nil => rfl
  | cons p rest ih =>
      rw [unpack_polaritons_cons, unpack_polaritons_cons]
      rw [ih (x.drop 2)]

theorem unpack_phonons_idem (phs : List PhononMode) (x : List ℝ) :
    unpack_phonons (unpack_phonons phs x) x = unpack_phonons phs x := by
  induction phs generalizing x with
  | nil => rfl
  | cons ph rest ih =>
      show { ph with position := x.getD 0 0, velocity := x.getD 1 0 }
          :: unpack_phonons (unpack_phonons rest (x.drop 2)) (x.drop 2)
        = { ph with position := x.getD 0 0, velocity := x.getD 1 0 }
          :: unpack_phonons rest (x.drop 2)
      rw [ih (x.drop 2)]

theorem unpack_reservoirs_idem (ps : List PolaritonMode) (x : List ℝ) :
    unpack_reservoirs (unpack_reservoirs ps x) x = unpack_reservoirs ps x := by
  induction ps generalizing x with
  | nil => rfl
  | cons p rest ih =>
      cases hro : p.reservoir_owned with
      | some r =>
          rw [unpack_reservoirs_cons_some p rest x r hro]
          rw [unpack_reservoirs_cons_some _ _ x { r with value := x.getD 0 0 } rfl]
          rw [ih (x.drop 1)]
      | none =>
          rw [unpack_reservoirs_cons_none p rest x hro]
          rw [unpack_reservoirs_cons_none p _ x hro]
          rw [ih x]

theorem unpack_polaritons_reservoirs_comm (ps : List PolaritonMode)
    (x w : List ℝ) :
    unpack_polaritons (unpack_reservoirs ps w) x
      = unpack_reservoirs (unpack_polaritons ps x) w := by
  induction ps generalizing x w with
  | nil => rfl
  | cons p rest ih =>
      cases hro : p.reservoir_owned with
      | some r =>
          rw [unpack_reservoirs_cons_some p rest w r hro, unpack_polaritons_cons,
            unpack_polaritons_cons,
            unpack_reservoirs_cons_some { p with value := ⟨x.getD 0 0, x.getD 1 0⟩ }
              (unpack_polaritons rest (x.drop 2)) w r hro,
            ih (x.drop 2) (w.drop 1)]
      | none =>
          rw [unpack_reservoirs_cons_none p rest w hro, unpack_polaritons_cons,
            unpack_polaritons_cons,
            unpack_reservoirs_cons_none { p with value := ⟨x.getD 0 0, x.getD 1 0⟩ }
              (unpack_polaritons rest (x.drop 2)) w hro,
            ih (x.drop 2) w]

theorem unpack_state_idem (ps : List PolaritonMode) (phs : List PhononMode)
    (x : List ℝ) :
    unpack_state (unpack_state ps phs x).1 (unpack_state ps phs x).2 x
      = unpack_state ps phs x := by
  unfold unpack_state
  simp only [unpack_reservoirs_length, unpack_polaritons_length,
    unpack_phonons_length, Prod.mk.injEq]
  constructor
  · rw [unpack_polaritons_reservoirs_comm, unpack_polaritons_idem,
      unpack_reservoirs_idem]
  · rw [unpack_phonons_idem]

/-- C7: Cavity::operator() is deterministic in (x, t): a second consecutive
invocation with the same state vector and time, starting from the entities
the first invocation left behind, writes the identical derivative vector. -/
theorem vector_field_evaluation_consistent (ps : List PolaritonMode)
    (phs : List PhononMode) (x : List ℝ) (t : ℝ) :
    (cavity_eval (cavity_eval ps phs x t).1.1 (cavity_eval ps phs x t).1.2 x t).2
      = (cavity_eval ps phs x t).2 := by
  show rhs_core (unpack_state (unpack_state ps phs x).1 (unpack_state ps phs x).2 x).1
      (unpack_state (unpack_state ps phs x).1 (unpack_state ps phs x).2 x).2 t
    = rhs_core (unpack_state ps phs x).1 (unpack_state ps phs x).2 t
  rw [unpack_state_idem]

theorem load_couplings_bad_to (pmap phmap : List (String × ℕ))
    (post : List CouplingDecl) (cd : CouplingDecl) :
    ∀ (pre : List CouplingDecl) (ps1 ps2 : List PolaritonMode),
    load_couplings pmap phmap pre ps1 = .ok ps2 →
    (map_lookup pmap cd.from_name).isSome →
    map_lookup pmap cd.to_name = none →
    load_couplings pmap phmap (pre ++ cd :: post) ps1
      = .error ("Coupling 'to' not found: " ++ cd.to_name) := by
  intro pre
  induction pre with
  | nil =>
      intro ps1 ps2 hok hfrom hto
      obtain ⟨i, hi⟩ := Option.isSome_iff_exists.mp hfrom
      simp [load_couplings, hi, hto]
  | cons d pre ih =>
      intro ps1 ps2 hok hfrom hto
      rw [List.cons_append]
      cases h1 : map_lookup pmap d.from_name with
      | none => simp [load_couplings, h1] at hok
      | some fid =>
          cases h2 : map_lookup pmap d.to_name with
          | none => simp [load_couplings, h1, h2] at hok
          | some tid =>
              cases h3 : map_lookup phmap d.phonon_name with
              | none => simp [load_couplings, h1, h2, h3] at hok
              | some pid =>
                  have hok2 : load_couplings pmap phmap pre
                      (ps1.set fid ((ps1.getD fid defPolariton).connect
                        tid pid d.J d.g d.delta d.above)) = .ok ps2 := by
                    simpa [load_couplings, h1, h2, h3] using hok
                  have hrec := ih _ ps2 hok2 hfrom hto
                  simpa [load_couplings, h1, h2, h3] using hrec

/-- C9 (amended): if loading reaches a coupling declaration whose from name
resolves but whose to name matches no created polariton (all reservoir
targets and all earlier coupling declarations resolved), then load_from_ini
fails with the error "Coupling 'to' not found: " followed by that exact
identifier, and no cavity is assembled: the dimension / state-vector /
pack steps in the success branch are never reached. -/
theorem coupling_to_unresolved_fails (cfg : CavityConfigFile)
    (pre post : List CouplingDecl) (cd : CouplingDecl)
    (ps1 ps2 : List PolaritonMode)
    (hsplit : cfg.coupling_decls = pre ++ cd :: post)
    (hres : load_reservoirs (polariton_name_map cfg.polariton_decls)
        cfg.reservoir_decls (build_polaritons cfg.polariton_decls) = .ok ps1)
    (hpre : load_couplings (polariton_name_map cfg.polariton_decls)
        (phonon_name_map cfg.phonon_decls) pre ps1 = .ok ps2)
    (hfrom : (map_lookup (polariton_name_map cfg.polariton_decls) cd.from_name).isSome)
    (hto : map_lookup (polariton_name_map cfg.polariton_decls) cd.to_name = none) :
    load_from_ini cfg = .error ("Coupling 'to' not found: " ++ cd.to_name) ∧
    cd.to_name.data <:+: ("Coupling 'to' not found: " ++ cd.to_name).data := by
  have hc := load_couplings_bad_to (polariton_name_map cfg.polariton_decls)
      (phonon_name_map cfg.phonon_decls) post cd pre ps1 ps2 hpre hfrom hto
  constructor
  · simp only [load_from_ini, hres, hsplit, hc]
  · show cd.to_name.data <:+:
      ("Coupling 'to' not found: ".data ++ cd.to_name.data)
    exact (List.suffix_append _ _).isInfix

/-- C9 witness: one polariton a and one coupling from = a, to = b: loading
fails with the message naming b. -/
theorem coupling_to_unresolved_fails_witness :
    load_from_ini cfg_to_missing
        = .error ("Coupling 'to' not found: " ++ "b") ∧
    ("b" : String).data <:+: ("Coupling 'to' not found: " ++ "b").data := by
  have h := coupling_to_unresolved_fails cfg_to_missing [] []
      { from_name := "a", to_name := "b", phonon_name := "c",
        J := 0, g := 1, delta := 0, above := true }
      (build_polaritons cfg_to_missing.polariton_decls)
      (build_polaritons cfg_to_missing.polariton_decls)
      rfl rfl rfl (by decide) (by decide)
  exact h

/-- C9 counterexample: when the declaration's from name is also unresolved,
loading still fails before assembly but the error names the from identifier
a, not the missing to identifier b, refuting the claim as stated. -/
theorem coupling_error_counterexample :
    map_lookup (polariton_name_map cfg_bad.polariton_decls) "b" = none ∧
    load_from_ini cfg_bad = .error ("Coupling 'from' not found: " ++ "a") ∧
    ¬ (("b" : String).data <:+: ("Coupling 'from' not found: " ++ "a").data) := by
  refine ⟨rfl, rfl, by decide⟩
